import Mathlib

/-!
Shallow embedding of the odlpet repository sources
(`src/odlpet/stir/bindings.py`, `src/odlpet/scanner/compression.py`,
`src/odlpet/scanner/scanner.py`) together with theorems settling the
frozen claims about them.

The external STIR engine is modelled explicitly: engine objects created by
the wrappers (ray-tracing projection matrices, forward/back engine
projectors) live in an explicit build state, so that claims about how many
engine objects a construction creates, and in which configuration, are
statements about that state.
-/

/-- A shape of an array, as the list of its dimension sizes
(Python tuples compared with `==` / `!=`). -/
abbrev Shape := List Nat

/-- Errors raised by the wrapper constructors in `bindings.py`.  Each shape
mismatch constructor records, in order, the two shape values interpolated
into the `ValueError` message string by the source (the message templates
are `domain.shape {} does not equal volume shape {}`,
`range.shape {} does not equal proj shape {}`, and in the back projector
`range.shape {} does not equal volume shape {}` and
`domain.shape {} does not equal proj shape {}`).  `recursionLimit` is the
fuel-exhaustion marker of the embedding; a terminating construction never
produces it. -/
inductive BindingsError where
  | fwdDomainMismatch : Shape → Shape → BindingsError
  | fwdRangeMismatch : Shape → Shape → BindingsError
  | backRangeMismatch : Shape → Shape → BindingsError
  | backDomainMismatch : Shape → Shape → BindingsError
  | recursionLimit : BindingsError
deriving DecidableEq, Repr

/-- State of a `stir.ProjMatrixByBinUsingRayTracing` engine object, as far
as the wrappers configure it: each `Option` field is `none` while the
corresponding engine setter has not been called on the object, and
`matrixSetUp` records whether `set_up` has been called on it. -/
structure MatrixObj where
  sym90 : Option Bool
  sym180 : Option Bool
  swapS : Option Bool
  swapSeg : Option Bool
  numTangentialLORs : Option Nat
  matrixSetUp : Bool
deriving DecidableEq, Repr

/-- A freshly constructed `stir.ProjMatrixByBinUsingRayTracing()`:
no setter has been called, the matrix is not set up. -/
def newRayTracingMatrix : MatrixObj :=
  ⟨none, none, none, none, none, false⟩

def MatrixObj.set_do_symmetry_90degrees_min_phi (m : MatrixObj) (b : Bool) : MatrixObj :=
  { m with sym90 := some b }

def MatrixObj.set_do_symmetry_180degrees_min_phi (m : MatrixObj) (b : Bool) : MatrixObj :=
  { m with sym180 := some b }

def MatrixObj.set_do_symmetry_swap_s (m : MatrixObj) (b : Bool) : MatrixObj :=
  { m with swapS := some b }

def MatrixObj.set_do_symmetry_swap_segment (m : MatrixObj) (b : Bool) : MatrixObj :=
  { m with swapSeg := some b }

def MatrixObj.set_num_tangential_LORs (m : MatrixObj) (n : Nat) : MatrixObj :=
  { m with numTangentialLORs := some n }

def MatrixObj.set_up (m : MatrixObj) : MatrixObj :=
  { m with matrixSetUp := true }

/-- An engine-side projector object
(`stir.ForwardProjectorByBinUsingProjMatrixByBin` when `isForward`, else
`stir.BackProjectorByBinUsingProjMatrixByBin`), holding the heap index of
the projection matrix it was constructed with and whether `set_up` has
been called on it. -/
structure EngineProjector where
  isForward : Bool
  matrix : Nat
  engSetUp : Bool
deriving DecidableEq, Repr

/-- A Python wrapper object (`ForwardProjectorByBinWrapper` when
`isForward`, else `BackProjectorByBinWrapper`).  `engineProjector` is the
heap index of its engine projector (`self.projector` resp.
`self.back_projector`), `adjoint` the heap index of the wrapper stored in
`self._adjoint`; both are `none` while the attribute has not been
assigned. -/
structure WrapperObj where
  isForward : Bool
  domainShape : Shape
  rangeShape : Shape
  engineProjector : Option Nat
  adjoint : Option Nat
deriving DecidableEq, Repr

/-- The engine- and wrapper-object heap built up during construction.
Indices into each list serve as object identities. -/
structure BuildState where
  matrices : List MatrixObj
  engineProjectors : List EngineProjector
  wrappers : List WrapperObj
deriving DecidableEq, Repr

def emptyBuildState : BuildState := ⟨[], [], []⟩

/-- Replace the element at an index of a list by the image under a
function (out-of-range indices leave the list unchanged). -/
def listModify {α : Type} (f : α → α) : Nat → List α → List α
  | _, [] => []
  | 0, x :: xs => f x :: xs
  | Nat.succ n, x :: xs => x :: listModify f n xs

/-- Assign `self.projector` / `self.back_projector` of the wrapper at
index `i` to the engine projector at index `p`. -/
def setWrapperProjector (st : BuildState) (i p : Nat) : BuildState :=
  { st with wrappers := listModify (fun w => { w with engineProjector := some p }) i st.wrappers }

/-- Assign `self._adjoint` of the wrapper at index `i` to the wrapper at
index `a`. -/
def setWrapperAdjoint (st : BuildState) (i a : Nat) : BuildState :=
  { st with wrappers := listModify (fun w => { w with adjoint := some a }) i st.wrappers }

/-- The constructors `ForwardProjectorByBinWrapper.__init__` (flag `true`)
and `BackProjectorByBinWrapper.__init__` (flag `false`) from
`bindings.py`, as one fuel-indexed function: the Python constructors call
each other, and the fuel makes that mutual call a structural recursion.
Arguments after the flag: the domain shape, range shape, volume-buffer
shape and projection-data shape, then the optional pre-built engine
projector (`projector` resp. `back_projector`) and the optional adjoint
wrapper, each as a heap index.  The result pairs the build state at the
moment the constructor returns or raises with either the heap index of the
constructed wrapper or the raised error. -/
def mkWrapper : Nat → Bool → Shape → Shape → Shape → Shape → Option Nat → Option Nat →
    BuildState → BuildState × Except BindingsError Nat
  | 0, _, _, _, _, _, _, _, st => (st, Except.error BindingsError.recursionLimit)
  | Nat.succ fuel, true, domS, rngS, volS, projS, projector, adjoint, st =>
    if domS = volS then
      if rngS = projS then
        let selfId := st.wrappers.length
        let st1 := { st with wrappers := st.wrappers ++ [⟨true, domS, rngS, none, none⟩] }
        match projector with
        | none =>
          let mId := st1.matrices.length
          let m := ((((((newRayTracingMatrix.set_do_symmetry_90degrees_min_phi
              true).set_do_symmetry_180degrees_min_phi
              true).set_do_symmetry_swap_s
              true).set_do_symmetry_swap_segment
              true).set_num_tangential_LORs 1).set_up)
          let st2 := { st1 with matrices := st1.matrices ++ [m] }
          let fpId := st2.engineProjectors.length
          let st3 := { st2 with engineProjectors := st2.engineProjectors ++ [⟨true, mId, true⟩] }
          let st4 := setWrapperProjector st3 selfId fpId
          match adjoint with
          | none =>
            let bpId := st4.engineProjectors.length
            let st5 := { st4 with engineProjectors := st4.engineProjectors ++ [⟨false, mId, true⟩] }
            match mkWrapper fuel false rngS domS volS projS (some bpId) (some selfId) st5 with
            | (st6, Except.error e) => (st6, Except.error e)
            | (st6, Except.ok backId) => (setWrapperAdjoint st6 selfId backId, Except.ok selfId)
          | some adjId => (setWrapperAdjoint st4 selfId adjId, Except.ok selfId)
        | some pId =>
          let st2 := setWrapperProjector st1 selfId pId
          match adjoint with
          | none =>
            match mkWrapper fuel false rngS domS volS projS none (some selfId) st2 with
            | (st3, Except.error e) => (st3, Except.error e)
            | (st3, Except.ok backId) => (setWrapperAdjoint st3 selfId backId, Except.ok selfId)
          | some adjId => (setWrapperAdjoint st2 selfId adjId, Except.ok selfId)
      else (st, Except.error (BindingsError.fwdRangeMismatch rngS projS))
    else (st, Except.error (BindingsError.fwdDomainMismatch domS volS))
  | Nat.succ fuel, false, domS, rngS, volS, projS, back_projector, adjoint, st =>
    if rngS = volS then
      if domS = projS then
        let selfId := st.wrappers.length
        let st1 := { st with wrappers := st.wrappers ++ [⟨false, domS, rngS, none, none⟩] }
        match back_projector with
        | none =>
          let mId := st1.matrices.length
          let st2 := { st1 with matrices := st1.matrices ++ [newRayTracingMatrix] }
          let bpId := st2.engineProjectors.length
          let st3 := { st2 with engineProjectors := st2.engineProjectors ++ [⟨false, mId, true⟩] }
          let st4 := setWrapperProjector st3 selfId bpId
          match adjoint with
          | none =>
            let fpId := st4.engineProjectors.length
            let st5 := { st4 with engineProjectors := st4.engineProjectors ++ [⟨true, mId, true⟩] }
            match mkWrapper fuel true rngS domS volS projS (some fpId) (some selfId) st5 with
            | (st6, Except.error e) => (st6, Except.error e)
            | (st6, Except.ok fwdId) => (setWrapperAdjoint st6 selfId fwdId, Except.ok selfId)
          | some adjId => (setWrapperAdjoint st4 selfId adjId, Except.ok selfId)
        | some bpId =>
          let st2 := setWrapperProjector st1 selfId bpId
          match adjoint with
          | none =>
            match mkWrapper fuel true rngS domS volS projS none (some selfId) st2 with
            | (st3, Except.error e) => (st3, Except.error e)
            | (st3, Except.ok fwdId) => (setWrapperAdjoint st3 selfId fwdId, Except.ok selfId)
          | some adjId => (setWrapperAdjoint st2 selfId adjId, Except.ok selfId)
      else (st, Except.error (BindingsError.backDomainMismatch rngS projS))
    else (st, Except.error (BindingsError.backRangeMismatch rngS volS))

/-- The matrix configuration produced by the forward-wrapper construction
path: all four symmetries enabled, one tangential LOR, set up. -/
def fullConfiguredMatrix : MatrixObj :=
  ⟨some true, some true, some true, some true, some 1, true⟩

/-- Helper: the forward construction path with no supplied projector and
no supplied adjoint, on matching shapes, computed in full. -/
theorem mkWrapper_forward_default_eq (volS projS : Shape) :
    mkWrapper 2 true volS projS volS projS none none emptyBuildState
      = (⟨[fullConfiguredMatrix],
          [⟨true, 0, true⟩, ⟨false, 0, true⟩],
          [⟨true, volS, projS, some 0, some 1⟩, ⟨false, projS, volS, some 1, some 0⟩]⟩,
         Except.ok 0) := by
  simp [mkWrapper, emptyBuildState, setWrapperProjector, setWrapperAdjoint, listModify,
    newRayTracingMatrix, MatrixObj.set_do_symmetry_90degrees_min_phi,
    MatrixObj.set_do_symmetry_180degrees_min_phi, MatrixObj.set_do_symmetry_swap_s,
    MatrixObj.set_do_symmetry_swap_segment, MatrixObj.set_num_tangential_LORs,
    MatrixObj.set_up, fullConfiguredMatrix]

/-- Helper: the direct back construction path with no supplied
back-projector and no supplied adjoint, on matching shapes, computed in
full. -/
theorem mkWrapper_back_default_eq (volS projS : Shape) :
    mkWrapper 2 false projS volS volS projS none none emptyBuildState
      = (⟨[newRayTracingMatrix],
          [⟨false, 0, true⟩, ⟨true, 0, true⟩],
          [⟨false, projS, volS, some 0, some 1⟩, ⟨true, volS, projS, some 1, some 0⟩]⟩,
         Except.ok 0) := by
  simp [mkWrapper, emptyBuildState, setWrapperProjector, setWrapperAdjoint, listModify,
    newRayTracingMatrix]

/-- C1: a ForwardProjectorByBinWrapper constructed with projector=None and
adjoint=None (and matching shapes) terminates within mutual-construction
depth 2, creates exactly one ray-tracing system matrix, gives both engine
projectors (forward and back) that same matrix object, and wires
forward.adjoint to the back wrapper and back.adjoint back to the forward
wrapper, so forward.adjoint.adjoint is forward. -/
theorem forward_ctor_builds_adjoint_pair (domS rngS volS projS : Shape)
    (h1 : domS = volS) (h2 : rngS = projS) :
    ∃ stF : BuildState,
      mkWrapper 2 true domS rngS volS projS none none emptyBuildState = (stF, Except.ok 0)
      ∧ stF.matrices.length = 1
      ∧ stF.engineProjectors = [⟨true, 0, true⟩, ⟨false, 0, true⟩]
      ∧ stF.wrappers.map WrapperObj.adjoint = [some 1, some 0]
      ∧ stF.wrappers.map WrapperObj.isForward = [true, false] := by
  subst h1
  subst h2
  refine ⟨_, mkWrapper_forward_default_eq _ _, ?_, ?_, ?_, ?_⟩ <;> rfl

/-- Witness for C1 at a concrete volume shape and projection shape. -/
theorem forward_ctor_builds_adjoint_pair_witness :
    ∃ stF : BuildState,
      mkWrapper 2 true [4, 4, 4] [15, 56, 56] [4, 4, 4] [15, 56, 56] none none emptyBuildState
        = (stF, Except.ok 0)
      ∧ stF.matrices.length = 1
      ∧ stF.engineProjectors = [⟨true, 0, true⟩, ⟨false, 0, true⟩]
      ∧ stF.wrappers.map WrapperObj.adjoint = [some 1, some 0]
      ∧ stF.wrappers.map WrapperObj.isForward = [true, false] :=
  forward_ctor_builds_adjoint_pair [4, 4, 4] [15, 56, 56] [4, 4, 4] [15, 56, 56] rfl rfl

/-- C2 (code evaluated at the failing input): constructing a back
projector whose domain shape (2,3,3) mismatches the projection shape
(3,3,3), with range shape equal to the volume shape (4,4,4), raises
before any engine object is created (the build state is unchanged), but
the ValueError message interpolates the range shape (4,4,4) where its
template names domain.shape, so the mismatched domain shape (2,3,3) is
not reported. -/
theorem back_ctor_domain_mismatch_message :
    mkWrapper 1 false [2, 3, 3] [4, 4, 4] [4, 4, 4] [3, 3, 3] none none emptyBuildState
      = (emptyBuildState,
         Except.error (BindingsError.backDomainMismatch [4, 4, 4] [3, 3, 3])) := by
  rfl

/-- C9: the matrix built by the direct back-construction path has no
symmetry enabled, no tangential-LOR count set and is never set up, while
the forward-construction path enables all four symmetries, sets one
tangential LOR and sets the matrix up; the two construction orders
produce different pair states. -/
theorem back_first_pair_differs_from_forward_first (domS rngS volS projS : Shape)
    (h1 : domS = volS) (h2 : rngS = projS) :
    ∃ stF stB : BuildState,
      mkWrapper 2 true domS rngS volS projS none none emptyBuildState = (stF, Except.ok 0)
      ∧ mkWrapper 2 false rngS domS volS projS none none emptyBuildState = (stB, Except.ok 0)
      ∧ stF.matrices = [fullConfiguredMatrix]
      ∧ stB.matrices = [newRayTracingMatrix]
      ∧ newRayTracingMatrix.sym90 = none ∧ newRayTracingMatrix.sym180 = none
      ∧ newRayTracingMatrix.swapS = none ∧ newRayTracingMatrix.swapSeg = none
      ∧ newRayTracingMatrix.numTangentialLORs = none
      ∧ newRayTracingMatrix.matrixSetUp = false
      ∧ stB ≠ stF := by
  subst h1
  subst h2
  refine ⟨_, _, mkWrapper_forward_default_eq _ _, mkWrapper_back_default_eq _ _,
    rfl, rfl, rfl, rfl, rfl, rfl, rfl, rfl, ?_⟩
  intro h
  have hm := congrArg BuildState.matrices h
  simp [newRayTracingMatrix, fullConfiguredMatrix] at hm

/-- Witness for C9 at a concrete volume shape and projection shape. -/
theorem back_first_pair_differs_from_forward_first_witness :
    ∃ stF stB : BuildState,
      mkWrapper 2 true [4, 4, 4] [15, 56, 56] [4, 4, 4] [15, 56, 56] none none emptyBuildState
        = (stF, Except.ok 0)
      ∧ mkWrapper 2 false [15, 56, 56] [4, 4, 4] [4, 4, 4] [15, 56, 56] none none emptyBuildState
        = (stB, Except.ok 0)
      ∧ stF.matrices = [fullConfiguredMatrix]
      ∧ stB.matrices = [newRayTracingMatrix]
      ∧ newRayTracingMatrix.sym90 = none ∧ newRayTracingMatrix.sym180 = none
      ∧ newRayTracingMatrix.swapS = none ∧ newRayTracingMatrix.swapSeg = none
      ∧ newRayTracingMatrix.numTangentialLORs = none
      ∧ newRayTracingMatrix.matrixSetUp = false
      ∧ stB ≠ stF :=
  back_first_pair_differs_from_forward_first [4, 4, 4] [15, 56, 56] [4, 4, 4] [15, 56, 56] rfl rfl

/-- Process-wide mutable state visible to an operator application: the
engine verbosity level and the contents of the shared volume and
projection-data buffers. -/
structure CallState where
  verbosity : Nat
  volumeBuf : List Int
  projBuf : List Int
deriving DecidableEq, Repr

/-- The `StirVerbosity` context manager of `bindings.py` wrapped around a
unit of work, following the Python `with` semantics: `__enter__` saves the
current level and sets the requested one, the body runs (it may change the
state and may raise, returning `Except.error`), and `__exit__` sets the
saved level again on both exit paths. -/
def withStirVerbosity {ε α : Type} (v : Nat) (work : CallState → CallState × Except ε α)
    (st : CallState) : CallState × Except ε α :=
  let old_verbosity := st.verbosity
  let r := work { st with verbosity := v }
  ({ r.1 with verbosity := old_verbosity }, r.2)

/-- `call_with_stir_buffer` from `bindings.py`: fill the input buffer from
`v_in`, fill the output buffer from `v_out` only when one is supplied,
invoke the engine call on the two buffers (it may raise), and return the
final buffer pair together with the value read back from the output
buffer.  The first list argument of `function` is the output buffer as the
engine receives it, the second the input buffer. -/
def call_with_stir_buffer {ε : Type} (function : List Int → List Int → Except ε (List Int))
    (b_in b_out v_in : List Int) (v_out : Option (List Int)) :
    (List Int × List Int) × Except ε (List Int) :=
  let b_in2 := v_in
  let b_out2 := match v_out with
    | some v => v
    | none => b_out
  match function b_out2 b_in2 with
  | Except.ok r => ((b_in2, r), Except.ok r)
  | Except.error e => ((b_in2, b_out2), Except.error e)

/-- `ForwardProjectorByBinWrapper._call`: fill the shared volume buffer
from the argument, then, under the scoped verbosity, run
`call_with_stir_buffer` with the volume buffer as input, the
projection-data buffer as output and no output value.  The engine call
`eng` receives the process verbosity current at the moment it runs as its
first argument. -/
def ForwardProjectorByBinWrapper_call {ε : Type}
    (eng : Nat → List Int → List Int → Except ε (List Int))
    (verbosity : Nat) (x : List Int) (st : CallState) : CallState × Except ε (List Int) :=
  let st1 : CallState := { st with volumeBuf := x }
  withStirVerbosity verbosity (fun s =>
    let r := call_with_stir_buffer (eng s.verbosity) s.volumeBuf s.projBuf x none
    ({ s with volumeBuf := r.1.1, projBuf := r.1.2 }, r.2)) st1

/-- `BackProjectorByBinWrapper._call`: under the scoped verbosity, run
`call_with_stir_buffer` with the projection-data buffer as input, the
volume buffer as output, and `self.range.zero()` — a zero array of the
range size — as the output value. -/
def BackProjectorByBinWrapper_call {ε : Type}
    (eng : Nat → List Int → List Int → Except ε (List Int))
    (verbosity : Nat) (rangeSize : Nat) (y : List Int) (st : CallState) :
    CallState × Except ε (List Int) :=
  withStirVerbosity verbosity (fun s =>
    let r := call_with_stir_buffer (eng s.verbosity) s.projBuf s.volumeBuf y
      (some (List.replicate rangeSize 0))
    ({ s with projBuf := r.1.1, volumeBuf := r.1.2 }, r.2)) st

/-- C3: on every forward or back application the verbosity after the call
equals the verbosity before it, for an arbitrary engine call — in
particular for one that raises — and the engine call itself observes the
requested level: an engine that raises reports, in its error value, that
it ran at level v. -/
theorem verbosity_saved_set_restored {ε : Type}
    (eng : Nat → List Int → List Int → Except ε (List Int))
    (v n : Nat) (x y : List Int) (st : CallState) :
    (ForwardProjectorByBinWrapper_call eng v x st).1.verbosity = st.verbosity
    ∧ (BackProjectorByBinWrapper_call eng v n y st).1.verbosity = st.verbosity
    ∧ (ForwardProjectorByBinWrapper_call
        (fun lvl _bo _bi => (Except.error lvl : Except Nat (List Int))) v x st).2
      = Except.error v
    ∧ (BackProjectorByBinWrapper_call
        (fun lvl _bo _bi => (Except.error lvl : Except Nat (List Int))) v n y st).2
      = Except.error v := by
  refine ⟨rfl, rfl, rfl, rfl⟩

/-- C10: the engine forward-projection call receives the projection-data
output buffer with its prior content — `call_with_stir_buffer` with no
output value fills only the input buffer — while the engine
back-projection call receives a zero-filled volume output buffer. -/
theorem output_buffer_fill_policy {ε : Type}
    (f : List Int → List Int → Except ε (List Int))
    (eng : Nat → List Int → List Int → Except ε (List Int))
    (v n : Nat) (x y b_in b_out v_in : List Int) (st : CallState) :
    (call_with_stir_buffer f b_in b_out v_in none).2 = f b_out v_in
    ∧ (call_with_stir_buffer f b_in b_out v_in none).1.1 = v_in
    ∧ (call_with_stir_buffer f b_in b_out v_in (some (List.replicate n 0))).2
      = f (List.replicate n 0) v_in
    ∧ (ForwardProjectorByBinWrapper_call eng v x st).2 = eng v st.projBuf x
    ∧ (BackProjectorByBinWrapper_call eng v n y st).2 = eng v (List.replicate n 0) y := by
  refine ⟨?_, ?_, ?_, ?_, ?_⟩
  · cases h : f b_out v_in <;> simp [call_with_stir_buffer, h]
  · cases h : f b_out v_in <;> simp [call_with_stir_buffer, h]
  · cases h : f (List.replicate n 0) v_in <;> simp [call_with_stir_buffer, h]
  · cases h : eng v st.projBuf x <;>
      simp [ForwardProjectorByBinWrapper_call, withStirVerbosity, call_with_stir_buffer, h]
  · cases h : eng v (List.replicate n 0) y <;>
      simp [BackProjectorByBinWrapper_call, withStirVerbosity, call_with_stir_buffer, h]

/-- The `Scanner` record of `scanner/scanner.py`, restricted to the fields
the repository reads: the attributes set by `_scanner_from_stir` and by
the preset subclasses.  `max_num_non_arc_cor_bins` and
`default_non_arc_cor_bins` are class-level `None` on `Scanner` and stay
`none` unless assigned, hence the `Option` type; sizes are modelled as
rationals. -/
structure Scanner where
  num_rings : Nat
  num_dets_per_ring : Nat
  voxel_size_xy : Rat
  default_non_arc_cor_bins : Option Nat
  intrinsic_tilt : Rat
  det_radius : Rat
  ring_spacing : Rat
  average_depth_of_inter : Rat
  max_num_non_arc_cor_bins : Option Nat
  axials_blocks_per_bucket : Nat
  trans_blocks_per_bucket : Nat
  axial_crystals_per_block : Nat
  trans_crystals_per_block : Nat
  axial_crystals_per_singles_unit : Nat
  trans_crystals_per_singles_unit : Nat
  num_detector_layers : Nat
deriving DecidableEq, Repr

/-- The `mCT` preset of `scanner/scanner.py`: `num_rings = 8`,
`num_dets_per_ring = 112`; the two bin-count fields inherit the
class-level `None` of `Scanner`. -/
def mCT : Scanner :=
  { num_rings := 8
    num_dets_per_ring := 112
    voxel_size_xy := (1.65 : Rat)
    default_non_arc_cor_bins := none
    intrinsic_tilt := 0
    det_radius := (57.5 : Rat)
    ring_spacing := (6.25 : Rat)
    average_depth_of_inter := 7
    max_num_non_arc_cor_bins := none
    axials_blocks_per_bucket := 1
    trans_blocks_per_bucket := 16
    axial_crystals_per_block := 8
    trans_crystals_per_block := 7
    axial_crystals_per_singles_unit := 8
    trans_crystals_per_singles_unit := 0
    num_detector_layers := 1 }

/-- A `Compression` object of `scanner/compression.py`: a scanner plus the
mutable compression attributes. -/
structure Compression where
  scanner : Scanner
  span_num : Nat
  max_num_segments : Option Nat
  num_of_views : Nat
  num_non_arccor_bins : Option Nat
  data_arc_corrected : Bool
deriving DecidableEq, Repr

/-- `Compression.__init__`: span 1, `max_num_segments = None`,
`num_of_views = scanner.num_dets_per_ring // 2`,
`num_non_arccor_bins = scanner.num_dets_per_ring // 2`,
`data_arc_corrected = False`. -/
def Compression.init (scanner : Scanner) : Compression :=
  { scanner := scanner
    span_num := 1
    max_num_segments := none
    num_of_views := scanner.num_dets_per_ring / 2
    num_non_arccor_bins := some (scanner.num_dets_per_ring / 2)
    data_arc_corrected := false }

/-- `Compression.get_default_num_tangential`. -/
def Compression.get_default_num_tangential (c : Compression) : Option Nat :=
  if c.data_arc_corrected then c.scanner.default_non_arc_cor_bins
  else c.scanner.max_num_non_arc_cor_bins

/-- `Compression.get_num_tangential`. -/
def Compression.get_num_tangential (c : Compression) : Option Nat :=
  match c.num_non_arccor_bins with
  | none => c.get_default_num_tangential
  | some n => some n

/-- `Compression.get_default_max_diff_ring`. -/
def Compression.get_default_max_diff_ring (c : Compression) : Nat :=
  c.scanner.num_rings - 1

/-- `Compression.get_max_ring_diff`. -/
def Compression.get_max_ring_diff (c : Compression) : Nat :=
  match c.max_num_segments with
  | none => c.get_default_max_diff_ring
  | some m => m

/-- C4: `get_max_ring_diff` returns the configured `max_num_segments`
when set and `scanner.num_rings - 1` when unset; in particular any
freshly initialised compression over a scanner with 8 rings — such as the
mCT preset — returns 7. -/
theorem get_max_ring_diff_resolution (c : Compression) (m : Nat) :
    (c.max_num_segments = none → c.get_max_ring_diff = c.scanner.num_rings - 1)
    ∧ (c.max_num_segments = some m → c.get_max_ring_diff = m)
    ∧ (∀ s : Scanner, s.num_rings = 8 → (Compression.init s).get_max_ring_diff = 7) := by
  refine ⟨?_, ?_, ?_⟩
  · intro h
    simp [Compression.get_max_ring_diff, Compression.get_default_max_diff_ring, h]
  · intro h
    simp [Compression.get_max_ring_diff, h]
  · intro s hs
    simp [Compression.init, Compression.get_max_ring_diff,
      Compression.get_default_max_diff_ring, hs]

/-- Witness for C4: the mCT preset has `max_num_segments` unset after
initialisation and 8 rings, so the effective max ring difference is 7;
with `max_num_segments` set to 3 the getter returns 3. -/
theorem get_max_ring_diff_resolution_witness :
    (Compression.init mCT).get_max_ring_diff = 7
    ∧ ({ Compression.init mCT with max_num_segments := some 3 }).get_max_ring_diff = 3 :=
  ⟨(get_max_ring_diff_resolution (Compression.init mCT) 3).2.2 mCT rfl,
   (get_max_ring_diff_resolution { Compression.init mCT with max_num_segments := some 3 } 3).2.1 rfl⟩

/-- C5: initialisation sets both the view count and the tangential-bin
count to `num_dets_per_ring // 2` — 56 for the 112-detector mCT preset —
`get_num_tangential` returns the configured count when set, and when the
count is unset it returns the scanner default selected by
`data_arc_corrected`: the default arc-corrected bin count when true, the
maximum non-arc-corrected bin count otherwise. -/
theorem views_and_tangential_resolution (s : Scanner) (c : Compression) (n : Nat) :
    (Compression.init s).num_of_views = s.num_dets_per_ring / 2
    ∧ (Compression.init s).num_non_arccor_bins = some (s.num_dets_per_ring / 2)
    ∧ (Compression.init mCT).num_of_views = 56
    ∧ (Compression.init mCT).num_non_arccor_bins = some 56
    ∧ (c.num_non_arccor_bins = some n → c.get_num_tangential = some n)
    ∧ (c.num_non_arccor_bins = none →
        c.get_num_tangential
          = if c.data_arc_corrected then c.scanner.default_non_arc_cor_bins
            else c.scanner.max_num_non_arc_cor_bins) := by
  refine ⟨rfl, rfl, rfl, rfl, ?_, ?_⟩
  · intro h
    simp [Compression.get_num_tangential, h]
  · intro h
    simp [Compression.get_num_tangential, Compression.get_default_num_tangential, h]

/-- Witness for C5: for the mCT preset, initialisation yields 56 views
and 56 tangential bins, and a compression with the bin count cleared and
arc correction off resolves to the scanner maximum bin count. -/
theorem views_and_tangential_resolution_witness :
    (Compression.init mCT).num_of_views = 56
    ∧ ({ Compression.init
          { mCT with max_num_non_arc_cor_bins := some 336 } with
          num_non_arccor_bins := none }).get_num_tangential = some 336 :=
  ⟨(views_and_tangential_resolution mCT (Compression.init mCT) 0).2.2.1,
   (views_and_tangential_resolution mCT
      { Compression.init { mCT with max_num_non_arc_cor_bins := some 336 } with
        num_non_arccor_bins := none } 0).2.2.2.2.2 rfl⟩

/-- An engine-side `stir.Scanner` object, with the fields the repository
sets and reads (one per setter used in `stir_get_STIR_geometry`, in the
order they are set there). -/
structure StirScannerRec where
  num_rings : Nat
  num_detectors_per_ring : Nat
  default_bin_size : Rat
  default_num_arccorrected_bins : Nat
  default_intrinsic_tilt : Rat
  inner_ring_radius : Rat
  ring_spacing : Rat
  average_depth_of_interaction : Rat
  max_num_non_arccorrected_bins : Nat
  num_axial_blocks_per_bucket : Nat
  num_transaxial_blocks_per_bucket : Nat
  num_axial_crystals_per_block : Nat
  num_transaxial_crystals_per_block : Nat
  num_axial_crystals_per_singles_unit : Nat
  num_transaxial_crystals_per_singles_unit : Nat
  num_detector_layers : Nat
deriving DecidableEq, Repr

def StirScannerRec.set_num_rings (s : StirScannerRec) (n : Nat) : StirScannerRec :=
  { s with num_rings := n }

def StirScannerRec.set_num_detectors_per_ring (s : StirScannerRec) (n : Nat) : StirScannerRec :=
  { s with num_detectors_per_ring := n }

def StirScannerRec.set_default_bin_size (s : StirScannerRec) (v : Rat) : StirScannerRec :=
  { s with default_bin_size := v }

def StirScannerRec.set_default_num_arccorrected_bins (s : StirScannerRec) (n : Nat) : StirScannerRec :=
  { s with default_num_arccorrected_bins := n }

def StirScannerRec.set_default_intrinsic_tilt (s : StirScannerRec) (v : Rat) : StirScannerRec :=
  { s with default_intrinsic_tilt := v }

def StirScannerRec.set_inner_ring_radius (s : StirScannerRec) (v : Rat) : StirScannerRec :=
  { s with inner_ring_radius := v }

def StirScannerRec.set_ring_spacing (s : StirScannerRec) (v : Rat) : StirScannerRec :=
  { s with ring_spacing := v }

def StirScannerRec.set_average_depth_of_interaction (s : StirScannerRec) (v : Rat) : StirScannerRec :=
  { s with average_depth_of_interaction := v }

def StirScannerRec.set_max_num_non_arccorrected_bins (s : StirScannerRec) (n : Nat) : StirScannerRec :=
  { s with max_num_non_arccorrected_bins := n }

def StirScannerRec.set_num_axial_blocks_per_bucket (s : StirScannerRec) (n : Nat) : StirScannerRec :=
  { s with num_axial_blocks_per_bucket := n }

def StirScannerRec.set_num_transaxial_blocks_per_bucket (s : StirScannerRec) (n : Nat) : StirScannerRec :=
  { s with num_transaxial_blocks_per_bucket := n }

def StirScannerRec.set_num_axial_crystals_per_block (s : StirScannerRec) (n : Nat) : StirScannerRec :=
  { s with num_axial_crystals_per_block := n }

def StirScannerRec.set_num_transaxial_crystals_per_block (s : StirScannerRec) (n : Nat) : StirScannerRec :=
  { s with num_transaxial_crystals_per_block := n }

def StirScannerRec.set_num_axial_crystals_per_singles_unit (s : StirScannerRec) (n : Nat) : StirScannerRec :=
  { s with num_axial_crystals_per_singles_unit := n }

def StirScannerRec.set_num_transaxial_crystals_per_singles_unit (s : StirScannerRec) (n : Nat) : StirScannerRec :=
  { s with num_transaxial_crystals_per_singles_unit := n }

def StirScannerRec.set_num_detector_layers (s : StirScannerRec) (n : Nat) : StirScannerRec :=
  { s with num_detector_layers := n }

/-- The parameter list of `stir_get_STIR_geometry`, in signature order;
each parameter with a default value in the Python signature is an
`Option`, `none` meaning the caller omitted it. -/
structure GeoParams where
  num_rings : Nat
  num_dets_per_ring : Nat
  det_radius : Rat
  ring_spacing : Rat
  average_depth_of_inter : Rat
  voxel_size_xy : Rat
  axial_crystals_per_block : Option Nat
  trans_crystals_per_block : Option Nat
  axials_blocks_per_bucket : Option Nat
  trans_blocks_per_bucket : Option Nat
  axial_crystals_per_singles_unit : Option Nat
  trans_crystals_per_singles_unit : Option Nat
  num_detector_layers : Option Nat
  intrinsic_tilt : Option Rat
  max_num_non_arc_cor_bins : Option Nat
  default_non_arc_cor_bins : Option Nat
deriving DecidableEq, Repr

/-- Failure of `stir_get_STIR_geometry`: the engine consistency predicate
does not hold (a `TypeError` in the source). -/
inductive GeometryError where
  | geometryInconsistent : GeometryError
deriving DecidableEq, Repr

/-- `stir_get_STIR_geometry` from `scanner/scanner.py`: resolve the two
bin-count defaults, start from the engine scanner returned for the empty
name (`s0`, arbitrary here), apply every setter, then run the consistency
predicate `chk` (`_check_consistency`, an engine call) and either return
the configured scanner or raise. -/
def stir_get_STIR_geometry (s0 : StirScannerRec) (chk : StirScannerRec → Bool)
    (p : GeoParams) : Except GeometryError StirScannerRec :=
  let maxBins := match p.max_num_non_arc_cor_bins with
    | none => p.num_dets_per_ring / 2
    | some m => m
  let defBins := match p.default_non_arc_cor_bins with
    | none => maxBins
    | some d => d
  let scanner :=
    ((((((((((((((((s0.set_num_rings
      p.num_rings).set_num_detectors_per_ring
      p.num_dets_per_ring).set_default_bin_size
      p.voxel_size_xy).set_default_num_arccorrected_bins
      defBins).set_default_intrinsic_tilt
      (p.intrinsic_tilt.getD 0)).set_inner_ring_radius
      p.det_radius).set_ring_spacing
      p.ring_spacing).set_average_depth_of_interaction
      p.average_depth_of_inter).set_max_num_non_arccorrected_bins
      maxBins).set_num_axial_blocks_per_bucket
      (p.axials_blocks_per_bucket.getD 1)).set_num_transaxial_blocks_per_bucket
      (p.trans_blocks_per_bucket.getD 1)).set_num_axial_crystals_per_block
      (p.axial_crystals_per_block.getD 1)).set_num_transaxial_crystals_per_block
      (p.trans_crystals_per_block.getD 1)).set_num_axial_crystals_per_singles_unit
      (p.axial_crystals_per_singles_unit.getD 1)).set_num_transaxial_crystals_per_singles_unit
      (p.trans_crystals_per_singles_unit.getD 1)).set_num_detector_layers
      (p.num_detector_layers.getD 1))
  if chk scanner then Except.ok scanner
  else Except.error GeometryError.geometryInconsistent

/-- The fully configured scanner `stir_get_STIR_geometry` builds from a
parameter set, written directly as a record: every field comes from the
parameters (with the documented default resolutions), none from the
initial engine scanner. -/
def fullScannerOf (p : GeoParams) : StirScannerRec :=
  let maxBins := match p.max_num_non_arc_cor_bins with
    | none => p.num_dets_per_ring / 2
    | some m => m
  let defBins := match p.default_non_arc_cor_bins with
    | none => maxBins
    | some d => d
  { num_rings := p.num_rings
    num_detectors_per_ring := p.num_dets_per_ring
    default_bin_size := p.voxel_size_xy
    default_num_arccorrected_bins := defBins
    default_intrinsic_tilt := p.intrinsic_tilt.getD 0
    inner_ring_radius := p.det_radius
    ring_spacing := p.ring_spacing
    average_depth_of_interaction := p.average_depth_of_inter
    max_num_non_arccorrected_bins := maxBins
    num_axial_blocks_per_bucket := p.axials_blocks_per_bucket.getD 1
    num_transaxial_blocks_per_bucket := p.trans_blocks_per_bucket.getD 1
    num_axial_crystals_per_block := p.axial_crystals_per_block.getD 1
    num_transaxial_crystals_per_block := p.trans_crystals_per_block.getD 1
    num_axial_crystals_per_singles_unit := p.axial_crystals_per_singles_unit.getD 1
    num_transaxial_crystals_per_singles_unit := p.trans_crystals_per_singles_unit.getD 1
    num_detector_layers := p.num_detector_layers.getD 1 }

/-- C6: geometry construction runs the consistency predicate on the fully
configured scanner and returns that scanner exactly when the predicate
holds, raising otherwise; the result does not depend on the initial
engine scanner object, so no partially configured geometry can be
returned. -/
theorem stir_geometry_atomic (s0 : StirScannerRec) (chk : StirScannerRec → Bool)
    (p : GeoParams) :
    stir_get_STIR_geometry s0 chk p
      = if chk (fullScannerOf p) then Except.ok (fullScannerOf p)
        else Except.error GeometryError.geometryInconsistent := by
  rfl

/-- C7: with every optional parameter omitted the configured scanner has
all block, bucket, crystal and detector-layer counts 1, intrinsic tilt 0,
`max_num_non_arccorrected_bins = num_dets_per_ring / 2` and the default
arc-corrected bin count equal to it; and whenever
`default_non_arc_cor_bins` is omitted the configured default equals the
resolved maximum, also when the maximum was supplied. -/
theorem stir_geometry_defaults (s0 : StirScannerRec) (nr nd mx : Nat)
    (dr rs ad vs : Rat) :
    stir_get_STIR_geometry s0 (fun _ => true)
        ⟨nr, nd, dr, rs, ad, vs, none, none, none, none, none, none, none, none, none, none⟩
      = Except.ok ⟨nr, nd, vs, nd / 2, 0, dr, rs, ad, nd / 2, 1, 1, 1, 1, 1, 1, 1⟩
    ∧ (fullScannerOf
        ⟨nr, nd, dr, rs, ad, vs, none, none, none, none, none, none, none, none, some mx, none⟩).default_num_arccorrected_bins
      = mx := by
  exact ⟨rfl, rfl⟩

/-- Failure of the scanner-name lookup (`ValueError` with message
`No default scanner of name {}` in the source), recording the requested
name. -/
inductive ScannerLookupError where
  | unknownScanner : String → ScannerLookupError
deriving DecidableEq, Repr

/-- `_scanner_from_stir` from `scanner/scanner.py`: copy each engine
getter into the corresponding `Scanner` attribute. -/
def _scanner_from_stir (s : StirScannerRec) : Scanner :=
  { num_rings := s.num_rings
    num_dets_per_ring := s.num_detectors_per_ring
    voxel_size_xy := s.default_bin_size
    default_non_arc_cor_bins := some s.default_num_arccorrected_bins
    intrinsic_tilt := s.default_intrinsic_tilt
    det_radius := s.inner_ring_radius
    ring_spacing := s.ring_spacing
    average_depth_of_inter := s.average_depth_of_interaction
    max_num_non_arc_cor_bins := some s.max_num_non_arccorrected_bins
    axials_blocks_per_bucket := s.num_axial_blocks_per_bucket
    trans_blocks_per_bucket := s.num_transaxial_blocks_per_bucket
    axial_crystals_per_block := s.num_axial_crystals_per_block
    trans_crystals_per_block := s.num_transaxial_crystals_per_block
    axial_crystals_per_singles_unit := s.num_axial_crystals_per_singles_unit
    trans_crystals_per_singles_unit := s.num_transaxial_crystals_per_singles_unit
    num_detector_layers := s.num_detector_layers }

/-- `_get_scanner_by_name` from `scanner/scanner.py`.  `registry` is the
module-level `SCANNER_NAMES` list (computed from the engine at import
time) and `engine` the engine constructor
`stir.Scanner.get_scanner_from_name`; the second component of the result
is the list of names the engine constructor was invoked on, so an empty
list means no engine scanner object was constructed. -/
def _get_scanner_by_name (registry : List String) (engine : String → StirScannerRec)
    (name : String) : Except ScannerLookupError StirScannerRec × List String :=
  if registry.contains name then (Except.ok (engine name), [name])
  else (Except.error (ScannerLookupError.unknownScanner name), [])

/-- `get_scanner_by_name` from `scanner/scanner.py`:
`_scanner_from_stir(_get_scanner_by_name(name))`, with the engine-call
trace passed through. -/
def get_scanner_by_name (registry : List String) (engine : String → StirScannerRec)
    (name : String) : Except ScannerLookupError Scanner × List String :=
  match _get_scanner_by_name registry engine name with
  | (Except.ok s, tr) => (Except.ok (_scanner_from_stir s), tr)
  | (Except.error e, tr) => (Except.error e, tr)

/-- C8: looking up a name absent from the registry fails with the
unknown-scanner error carrying that name, with an empty engine-call
trace: no engine scanner object is constructed before the failure. -/
theorem get_scanner_by_name_unknown (registry : List String)
    (engine : String → StirScannerRec) (name : String)
    (h : name ∉ registry) :
    get_scanner_by_name registry engine name
      = (Except.error (ScannerLookupError.unknownScanner name), []) := by
  simp [get_scanner_by_name, _get_scanner_by_name, h]

/-- Witness for C8: a two-entry registry and a name outside it. -/
theorem get_scanner_by_name_unknown_witness :
    get_scanner_by_name ["mCT", "ECAT 962"] (fun _ => fullScannerOf
        ⟨8, 112, 0, 0, 0, 0, none, none, none, none, none, none, none, none, none, none⟩)
      "no such scanner"
      = (Except.error (ScannerLookupError.unknownScanner ("no such scanner")), []) :=
  get_scanner_by_name_unknown ["mCT", "ECAT 962"] (fun _ => fullScannerOf
    ⟨8, 112, 0, 0, 0, 0, none, none, none, none, none, none, none, none, none, none⟩)
    "no such scanner" (by decide)
